import Mathlib

/-
  Shallow embedding of drivers/misc/axi_fpga.c (Ettus axi_fpga misc driver).

  The driver state struct axi_fpga_drvdata is modelled with its mutable
  fields (dev_open, irq_happened) and the immutable geometry fixed at probe
  time (dev_physaddr, dev_size, the buffer page frame, fpga_buffer_npages).
  External kernel services are oracles passed as arguments:
    - request_irq success is a Bool,
    - get_user_pages result is an Option Nat (none models res = 0),
    - dma_map_page result is a Nat supplied by the platform,
    - a pending signal during wait_event_interruptible is a Bool.
  Side effects on the kernel (dma mapping, cache syncs, copy_to_user,
  remap_pfn_range) are recorded as an effect trace; remap requests are
  recorded exactly as the code issues them.
-/

namespace AxiFpga

def PAGE_SHIFT : Nat := 12

def PAGE_SIZE : Nat := 2 ^ PAGE_SHIFT

def EIO_errno : Int := 5

def EBUSY : Int := 16

def EINVAL : Int := 22

def ENOTTY : Int := 25

def POLLIN : Nat := 0x0001

def POLLRDNORM : Nat := 0x0040

/-- Mirror of struct buffer_addr: the user-supplied transfer descriptor. -/
structure buffer_addr where
  virt_addr : Nat
  phys_addr : Nat
  size : Nat
  direction : Int
deriving DecidableEq

/-- Mirror of struct axi_fpga_drvdata. dev_open and irq_happened are the
C ints (only 0 and 1 are ever stored); irqHeld records whether request_irq
has succeeded and free_irq not yet run. fpga_buffer_pfn models
page_to_pfn of fpga_buffer_pages. -/
structure axi_fpga_drvdata where
  dev_open : Nat
  irq_happened : Nat
  irqHeld : Bool
  dev_physaddr : Nat
  dev_size : Nat
  fpga_buffer_pfn : Nat
  fpga_buffer_npages : Nat
deriving DecidableEq

inductive dma_data_direction where
  | DMA_TO_DEVICE
  | DMA_FROM_DEVICE
deriving DecidableEq

/-- Kernel-side effects the ioctl path performs, recorded in call order.
In dma_map_page, the first field is the page handle from get_user_pages;
none records the call that the code issues even though get_user_pages
resolved no page, so the page variable holds no valid handle. -/
inductive Effect where
  | get_user_pages (virt : Nat)
  | dma_map_page (resolved : Option Nat) (size : Nat) (dir : dma_data_direction)
  | dma_sync_single_for_device (phys : Nat) (size : Nat) (dir : dma_data_direction)
  | dma_sync_single_for_cpu (phys : Nat) (size : Nat) (dir : dma_data_direction)
  | copy_to_user (b : buffer_addr)
deriving DecidableEq

inductive IoctlCmd where
  | AXI_FPGA_GET_PAGE
  | AXI_FPGA_GIVE_PAGE
  | AXI_FPGA_TAKE_PAGE
  | unknown
deriving DecidableEq

/-- Result of one axi_fpga_ioctl call: the returned value, the
caller-visible descriptor after the call (the copy_to_user target; equal
to the input descriptor when no copy_to_user runs), the kernel effect
trace, and the device instance after the call. -/
structure IoctlResult where
  retval : Int
  ubuf : buffer_addr
  effects : List Effect
  dev : axi_fpga_drvdata
deriving DecidableEq

/-- Mirror of axi_fpga_irq_handler: atomic_set irq_happened to 1 and wake
the waiter (the wake is implicit: readers consult irq_happened directly). -/
def axi_fpga_irq_handler (d : axi_fpga_drvdata) : axi_fpga_drvdata :=
  { d with irq_happened := 1 }

/-- Mirror of axi_fpga_open. request_irq_ok is the oracle for request_irq
succeeding. Note the source sets dev_open to 1 before calling request_irq
and does not reset it on the failure path. -/
def axi_fpga_open (request_irq_ok : Bool) (d : axi_fpga_drvdata) :
    Int × axi_fpga_drvdata :=
  if d.dev_open ≠ 0 then (-EBUSY, d)
  else
    let d1 := { d with dev_open := 1 }
    if request_irq_ok then (0, { d1 with irqHeld := true })
    else (-EBUSY, d1)

/-- Mirror of axi_fpga_poll: -EIO when not open, else report
POLLIN | POLLRDNORM exactly when irq_happened reads 1, with no writes. -/
def axi_fpga_poll (d : axi_fpga_drvdata) : Int × axi_fpga_drvdata :=
  if d.dev_open = 0 then (-EIO_errno, d)
  else (if d.irq_happened = 1 then ((POLLIN ||| POLLRDNORM : Nat) : Int) else 0, d)

/-- Mirror of axi_fpga_read. signal_pending models a pending signal that
interrupts wait_event_interruptible. The call completes when the wait
condition irq_happened = 1 holds or a signal is pending; otherwise it
blocks, modelled as none. The source ignores the return value of
wait_event_interruptible, clears irq_happened unconditionally and
returns 0 on every completion path. -/
def axi_fpga_read (signal_pending : Bool) (d : axi_fpga_drvdata) :
    Option (Int × axi_fpga_drvdata) :=
  if d.dev_open = 0 then some (-EIO_errno, d)
  else if d.irq_happened = 1 ∨ signal_pending = true then
    some (0, { d with irq_happened := 0 })
  else none

/-- Mirror of axi_fpga_ioctl. gup_result is the oracle for
get_user_pages (none models res = 0); dma_addr is the address returned by
dma_map_page. The source reads no field of the drvdata in any arm and
writes none, so the device instance is returned unchanged. In the
GET_PAGE arm the source sets retval = -EINVAL when res = 0 but does not
return early: it still calls dma_map_page and copy_to_user. -/
def axi_fpga_ioctl (gup_result : Option Nat) (dma_addr : Nat)
    (cmd : IoctlCmd) (buf_addr : buffer_addr) (d : axi_fpga_drvdata) :
    IoctlResult :=
  match cmd with
  | IoctlCmd.AXI_FPGA_GET_PAGE =>
    let retval : Int := if gup_result = none then -EINVAL else 0
    let dir := if buf_addr.direction ≠ 0 then dma_data_direction.DMA_TO_DEVICE
               else dma_data_direction.DMA_FROM_DEVICE
    let buf2 := { buf_addr with phys_addr := dma_addr }
    { retval := retval, ubuf := buf2,
      effects := [Effect.get_user_pages buf_addr.virt_addr,
                  Effect.dma_map_page gup_result buf_addr.size dir,
                  Effect.copy_to_user buf2],
      dev := d }
  | IoctlCmd.AXI_FPGA_GIVE_PAGE =>
    let dir := if buf_addr.direction ≠ 0 then dma_data_direction.DMA_TO_DEVICE
               else dma_data_direction.DMA_FROM_DEVICE
    { retval := 0, ubuf := buf_addr,
      effects := [Effect.dma_sync_single_for_device buf_addr.phys_addr buf_addr.size dir],
      dev := d }
  | IoctlCmd.AXI_FPGA_TAKE_PAGE =>
    let dir := if buf_addr.direction ≠ 0 then dma_data_direction.DMA_TO_DEVICE
               else dma_data_direction.DMA_FROM_DEVICE
    { retval := 0, ubuf := buf_addr,
      effects := [Effect.dma_sync_single_for_cpu buf_addr.phys_addr buf_addr.size dir],
      dev := d }
  | IoctlCmd.unknown =>
    { retval := -ENOTTY, ubuf := buf_addr, effects := [], dev := d }

/-- The fields of a vm_area_struct the source consults. -/
structure vm_area where
  vm_start : Nat
  vm_end : Nat
  vm_pgoff : Nat
deriving DecidableEq

/-- One remap_pfn_range request as the source issues it: target user
address, first page frame, byte size, and whether vm_page_prot had been
made non-cached. -/
structure Remap where
  addr : Nat
  pfn : Nat
  size : Nat
  noncached : Bool
deriving DecidableEq

/-- Mirror of axi_fpga_mmap. Returns the C result together with the list
of remap_pfn_range requests issued, in order. Note the second request of
the source passes addr = d.dev_size (the variable was reassigned from
vma.vm_start to d.dev_size), not vma.vm_start + d.dev_size. -/
def axi_fpga_mmap (d : axi_fpga_drvdata) (vma : vm_area) : Int × List Remap :=
  if d.dev_open = 0 then (-EIO_errno, [])
  else if vma.vm_pgoff ≠ 0 then (-EINVAL, [])
  else
    let expected_size := d.dev_size + 2 ^ d.fpga_buffer_npages * PAGE_SIZE
    let size := vma.vm_end - vma.vm_start
    if size ≠ expected_size then (-EINVAL, [])
    else
      (0, [{ addr := vma.vm_start, pfn := d.dev_physaddr >>> PAGE_SHIFT,
             size := d.dev_size, noncached := true },
           { addr := d.dev_size, pfn := d.fpga_buffer_pfn,
             size := 2 ^ d.fpga_buffer_npages * PAGE_SIZE, noncached := true }])

/-- Mirror of axi_fpga_release: -EIO when already closed, else free the
irq and clear dev_open. -/
def axi_fpga_release (d : axi_fpga_drvdata) : Int × axi_fpga_drvdata :=
  if d.dev_open = 0 then (-EIO_errno, d)
  else (0, { d with irqHeld := false, dev_open := 0 })

/-- Physical address backing a given user address under a list of remap
requests: the first request covering the address wins. -/
def lookupPhys (rs : List Remap) (ua : Nat) : Option Nat :=
  match rs.find? (fun r => decide (r.addr ≤ ua ∧ ua < r.addr + r.size)) with
  | some r => some (r.pfn * PAGE_SIZE + (ua - r.addr))
  | none => none

/-- Iterated hardware triggers. -/
def triggerN : Nat → axi_fpga_drvdata → axi_fpga_drvdata
  | 0, d => d
  | n + 1, d => axi_fpga_irq_handler (triggerN n d)

/-- Iterated polling: the device state after n poll calls. -/
def pollIter : Nat → axi_fpga_drvdata → axi_fpga_drvdata
  | 0, d => d
  | n + 1, d => (axi_fpga_poll (pollIter n d)).2

/-- One successful open followed by one successful close; none if either
call fails. -/
def openClose (d : axi_fpga_drvdata) : Option axi_fpga_drvdata :=
  let r := axi_fpga_open true d
  if r.1 = 0 then
    let r2 := axi_fpga_release r.2
    if r2.1 = 0 then some r2.2 else none
  else none

/-- n successful open-close cycles. -/
def openCloseN : Nat → axi_fpga_drvdata → Option axi_fpga_drvdata
  | 0, d => some d
  | n + 1, d =>
    match openClose d with
    | some d2 => openCloseN n d2
    | none => none

/-- A bound instance as probe leaves it: closed, no latched event, a
4 KiB register window and a 4-page (npages = 2) buffer. -/
def demo_cfg : axi_fpga_drvdata :=
  { dev_open := 0, irq_happened := 0, irqHeld := false,
    dev_physaddr := 0x80000000, dev_size := 4096,
    fpga_buffer_pfn := 0x30000, fpga_buffer_npages := 2 }

/-- The same instance with an open session and no latched event. -/
def demo_open : axi_fpga_drvdata := { demo_cfg with dev_open := 1, irqHeld := true }

/-- A well-formed mapping request: zero offset, size 4096 + 4 * 4096. -/
def demo_vma : vm_area :=
  { vm_start := 0x40000000, vm_end := 0x40000000 + (4096 + 4 * 4096), vm_pgoff := 0 }

/-- A transfer descriptor with direction nonzero (to device). -/
def demo_buf : buffer_addr :=
  { virt_addr := 0x50000000, phys_addr := 0x12345000, size := 4096, direction := 1 }

/-- A mapping request one page short of the demo geometry. -/
def demo_vma_bad : vm_area :=
  { vm_start := 0x40000000, vm_end := 0x40000000 + (4096 + 3 * 4096), vm_pgoff := 0 }

/-- C1 counterexample: on a device state with dev_open = 0 (session
closed), the GIVE_PAGE ioctl does not fail with -EIO; it returns 0 and
still performs its cache-sync effect, so the claim that the
ownership-transfer ioctls fail with NotOpen on a closed session is false. -/
theorem C1_counterexample :
    (axi_fpga_ioctl none 0 IoctlCmd.AXI_FPGA_GIVE_PAGE demo_buf demo_cfg).retval = 0 ∧
    (axi_fpga_ioctl none 0 IoctlCmd.AXI_FPGA_GIVE_PAGE demo_buf demo_cfg).retval ≠ -EIO_errno ∧
    (axi_fpga_ioctl none 0 IoctlCmd.AXI_FPGA_GIVE_PAGE demo_buf demo_cfg).effects ≠ [] := by
  decide

/-- C1 (amended): on a device state with sessionState Closed, map,
blocking read and poll fail with -EIO (NotOpen) and perform no effect and
no state change; the ownership-transfer ioctls perform no session-state
check at all: their returned value, caller-visible descriptor and effect
trace are independent of the device state, and they run their effects on a
closed session exactly as on an open one. -/
theorem C1_closed_session_gating (d : axi_fpga_drvdata) (h : d.dev_open = 0)
    (vma : vm_area) (sp : Bool) :
    axi_fpga_mmap d vma = (-EIO_errno, []) ∧
    axi_fpga_read sp d = some (-EIO_errno, d) ∧
    axi_fpga_poll d = (-EIO_errno, d) ∧
    (∀ gup dma cmd b, ∀ d2 : axi_fpga_drvdata,
      (axi_fpga_ioctl gup dma cmd b d).retval = (axi_fpga_ioctl gup dma cmd b d2).retval ∧
      (axi_fpga_ioctl gup dma cmd b d).ubuf = (axi_fpga_ioctl gup dma cmd b d2).ubuf ∧
      (axi_fpga_ioctl gup dma cmd b d).effects = (axi_fpga_ioctl gup dma cmd b d2).effects) := by
  refine ⟨?_, ?_, ?_, ?_⟩
  · simp [axi_fpga_mmap, h]
  · simp [axi_fpga_read, h]
  · simp [axi_fpga_poll, h]
  · intro gup dma cmd b d2
    cases cmd <;> simp [axi_fpga_ioctl]

/-- C1 witness: the amended statement instantiated at the closed demo
instance. -/
theorem C1_closed_session_gating_witness :
    demo_cfg.dev_open = 0 ∧
    axi_fpga_mmap demo_cfg demo_vma = (-EIO_errno, []) ∧
    axi_fpga_read false demo_cfg = some (-EIO_errno, demo_cfg) ∧
    axi_fpga_poll demo_cfg = (-EIO_errno, demo_cfg) :=
  ⟨rfl, (C1_closed_session_gating demo_cfg rfl demo_vma false).1,
    (C1_closed_session_gating demo_cfg rfl demo_vma false).2.1,
    (C1_closed_session_gating demo_cfg rfl demo_vma false).2.2.1⟩

/-- C2: the source sets dev_open to 1 before calling request_irq and does
not reset it when request_irq fails, so a failed acquisition leaves the
session marked Open and a subsequent open (even with the interrupt line
now available) is rejected with -EBUSY, contradicting the claim that the
state is left Closed. -/
theorem C2_failed_open_leaves_session_marked_open :
    (axi_fpga_open false demo_cfg).1 = -EBUSY ∧
    (axi_fpga_open false demo_cfg).2.dev_open = 1 ∧
    (axi_fpga_open true (axi_fpga_open false demo_cfg).2).1 = -EBUSY := by
  decide

/-- C3: a blocking read completed by a pending signal on an open session
with no latched event returns exactly the same result as a read completed
by a latched event: value 0 with irq_happened cleared. The source ignores
the return value of wait_event_interruptible, so the cancellation result
is not distinguishable from the normal zero-length success, and the
unconditional clear of irq_happened runs on the signalled path too. -/
theorem C3_cancellation_indistinguishable :
    axi_fpga_read true demo_open = some (0, demo_open) ∧
    axi_fpga_read false { demo_open with irq_happened := 1 } = some (0, demo_open) ∧
    axi_fpga_read true { demo_open with irq_happened := 1 } = some (0, demo_open) := by
  decide

/-- C4: at a successful mmap of the demo geometry based at user address
0x40000000, the byte offset controlSize of the mapped region (user
address vm_start + dev_size) is backed by no remap request, while the
buffer pages were requested at absolute address dev_size = 4096, outside
the region; the in-region offsets [controlSize, controlSize + bufferSize)
are therefore not backed by the DMA buffer. Offsets [0, controlSize) are
correctly backed by the control window, caching disabled. -/
theorem C4_buffer_remap_at_absolute_address :
    (axi_fpga_mmap demo_open demo_vma).1 = 0 ∧
    lookupPhys (axi_fpga_mmap demo_open demo_vma).2
      (demo_vma.vm_start + demo_open.dev_size) = none ∧
    lookupPhys (axi_fpga_mmap demo_open demo_vma).2 demo_open.dev_size
      = some (demo_open.fpga_buffer_pfn * PAGE_SIZE) ∧
    lookupPhys (axi_fpga_mmap demo_open demo_vma).2 demo_vma.vm_start
      = some demo_open.dev_physaddr ∧
    (∀ r ∈ (axi_fpga_mmap demo_open demo_vma).2, r.noncached = true) := by
  refine ⟨by decide, by decide, by decide, by decide, ?_⟩
  decide

/-- C5: on an open session, any mapping request whose size differs from
controlSize + bufferSize, or whose page offset is nonzero, fails with
-EINVAL and issues no remap request. -/
theorem C5_mmap_geometry (d : axi_fpga_drvdata) (vma : vm_area)
    (hopen : d.dev_open ≠ 0)
    (hbad : vma.vm_end - vma.vm_start ≠ d.dev_size + 2 ^ d.fpga_buffer_npages * PAGE_SIZE
            ∨ vma.vm_pgoff ≠ 0) :
    axi_fpga_mmap d vma = (-EINVAL, []) := by
  by_cases hp : vma.vm_pgoff = 0
  · have hs : vma.vm_end - vma.vm_start ≠ d.dev_size + 2 ^ d.fpga_buffer_npages * PAGE_SIZE := by
      rcases hbad with hb | hb
      · exact hb
      · exact absurd hp hb
    simp [axi_fpga_mmap, hopen, hp, hs]
  · simp [axi_fpga_mmap, hopen, hp]

/-- C5 witness: an open session rejects a request one page short. -/
theorem C5_mmap_geometry_witness :
    demo_open.dev_open ≠ 0 ∧
    demo_vma_bad.vm_end - demo_vma_bad.vm_start
      ≠ demo_open.dev_size + 2 ^ demo_open.fpga_buffer_npages * PAGE_SIZE ∧
    axi_fpga_mmap demo_open demo_vma_bad = (-EINVAL, []) :=
  ⟨by decide, by decide,
    C5_mmap_geometry demo_open demo_vma_bad (by decide) (Or.inl (by decide))⟩

/-- C6: on an open session, poll reports the POLLIN | POLLRDNORM mask
exactly when irq_happened = 1, never writes the device state, and any
number of repeated polls leaves the state (hence the flag) unchanged and
keeps reporting the same readiness. -/
theorem C6_poll_never_clears (d : axi_fpga_drvdata) (hopen : d.dev_open ≠ 0) :
    ((axi_fpga_poll d).1 = ((POLLIN ||| POLLRDNORM : Nat) : Int) ↔ d.irq_happened = 1) ∧
    (axi_fpga_poll d).2 = d ∧
    (∀ n, pollIter n d = d) ∧
    (∀ n, (axi_fpga_poll (pollIter n d)).1 = (axi_fpga_poll d).1) := by
  have h2 : (axi_fpga_poll d).2 = d := by simp [axi_fpga_poll, hopen]
  have hiter : ∀ n, pollIter n d = d := by
    intro n
    induction n with
    | zero => rfl
    | succ n ih => simp [pollIter, ih, h2]
  refine ⟨?_, h2, hiter, fun n => by rw [hiter n]⟩
  by_cases hf : d.irq_happened = 1
  · simp [axi_fpga_poll, hopen, hf]
  · simp [axi_fpga_poll, hopen, hf]
    decide

/-- C6 witness: the poll contract instantiated at the open demo instance
with the event latched. -/
theorem C6_poll_never_clears_witness :
    { demo_open with irq_happened := 1 }.dev_open ≠ 0 ∧
    ((axi_fpga_poll { demo_open with irq_happened := 1 }).1
        = ((POLLIN ||| POLLRDNORM : Nat) : Int)
      ↔ { demo_open with irq_happened := 1 }.irq_happened = 1) ∧
    (axi_fpga_poll { demo_open with irq_happened := 1 }).2
      = { demo_open with irq_happened := 1 } :=
  ⟨by decide, (C6_poll_never_clears { demo_open with irq_happened := 1 } (by decide)).1,
    (C6_poll_never_clears { demo_open with irq_happened := 1 } (by decide)).2.1⟩

/-- Triggers do not change dev_open. -/
theorem triggerN_dev_open (n : Nat) (d : axi_fpga_drvdata) :
    (triggerN n d).dev_open = d.dev_open := by
  induction n with
  | zero => rfl
  | succ n ih => simp [triggerN, axi_fpga_irq_handler, ih]

/-- At least one trigger latches the event flag. -/
theorem triggerN_irq_happened (n : Nat) (d : axi_fpga_drvdata) (hn : 1 ≤ n) :
    (triggerN n d).irq_happened = 1 := by
  cases n with
  | zero => exact absurd hn (by decide)
  | succ n => simp [triggerN, axi_fpga_irq_handler]

/-- C7: on an open session, n ≥ 2 triggers produce exactly one successful
wait return: the first uninterrupted read after the triggers succeeds
(value 0) and clears the flag, and an immediately following read blocks;
moreover a read begun after a single trigger observes it and succeeds. -/
theorem C7_trigger_coalescing (d : axi_fpga_drvdata) (hopen : d.dev_open ≠ 0)
    (n : Nat) (hn : 2 ≤ n) :
    axi_fpga_read false (triggerN n d) = some (0, { triggerN n d with irq_happened := 0 }) ∧
    axi_fpga_read false { triggerN n d with irq_happened := 0 } = none ∧
    axi_fpga_read false (axi_fpga_irq_handler d) =
      some (0, { axi_fpga_irq_handler d with irq_happened := 0 }) := by
  have h1 : (triggerN n d).dev_open = d.dev_open := triggerN_dev_open n d
  have h2 : (triggerN n d).irq_happened = 1 :=
    triggerN_irq_happened n d (le_trans (by decide) hn)
  refine ⟨?_, ?_, ?_⟩
  · simp [axi_fpga_read, h1, hopen, h2]
  · simp [axi_fpga_read, h1, hopen]
  · simp [axi_fpga_read, axi_fpga_irq_handler, hopen]

/-- C7 witness: two triggers on the open demo instance yield one
successful read, the next read blocks, and a read after one trigger
succeeds. -/
theorem C7_trigger_coalescing_witness :
    demo_open.dev_open ≠ 0 ∧ (2 : Nat) ≤ 2 ∧
    axi_fpga_read false (triggerN 2 demo_open)
      = some (0, { triggerN 2 demo_open with irq_happened := 0 }) ∧
    axi_fpga_read false { triggerN 2 demo_open with irq_happened := 0 } = none ∧
    axi_fpga_read false (axi_fpga_irq_handler demo_open)
      = some (0, { axi_fpga_irq_handler demo_open with irq_happened := 0 }) :=
  ⟨by decide, by decide,
    (C7_trigger_coalescing demo_open (by decide) 2 (by decide)).1,
    (C7_trigger_coalescing demo_open (by decide) 2 (by decide)).2.1,
    (C7_trigger_coalescing demo_open (by decide) 2 (by decide)).2.2⟩

/-- C8: open on an open session always fails with -EBUSY and changes
nothing, close on a closed session always fails with -EIO and changes
nothing, and from any closed state not holding the interrupt line any
number of successful open-close cycles returns the instance to exactly
its starting state. -/
theorem C8_session_state_machine (d : axi_fpga_drvdata)
    (hC : d.dev_open = 0) (hH : d.irqHeld = false) :
    (∀ e : axi_fpga_drvdata, e.dev_open ≠ 0 → ∀ ok : Bool, axi_fpga_open ok e = (-EBUSY, e)) ∧
    (∀ e : axi_fpga_drvdata, e.dev_open = 0 → axi_fpga_release e = (-EIO_errno, e)) ∧
    (∀ n : Nat, openCloseN n d = some d) := by
  refine ⟨?_, ?_, ?_⟩
  · intro e he ok
    simp [axi_fpga_open, he]
  · intro e he
    simp [axi_fpga_release, he]
  · have hstep : openClose d = some d := by
      obtain ⟨o, f, held, pa, sz, pfn, np⟩ := d
      simp_all [openClose, axi_fpga_open, axi_fpga_release]
    intro n
    induction n with
    | zero => rfl
    | succ n ih => simp [openCloseN, hstep, ih]

/-- C8 witness: the session state machine instantiated at the closed demo
instance, with three cycles. -/
theorem C8_session_state_machine_witness :
    demo_cfg.dev_open = 0 ∧ demo_cfg.irqHeld = false ∧
    openCloseN 3 demo_cfg = some demo_cfg :=
  ⟨rfl, rfl, (C8_session_state_machine demo_cfg rfl rfl).2.2 3⟩

/-- C9: a GET_PAGE call whose page resolution fails (get_user_pages
returns no page) returns -EINVAL but is not side-effect free: the trace
still holds a dma_map_page call carrying no resolved page and a
copy_to_user that overwrites the caller-visible descriptor with the bogus
mapped address, so the descriptor differs from its input value; only the
device instance itself is left unchanged. -/
theorem C9_getpage_failure_side_effects :
    (axi_fpga_ioctl none 0x99999000 IoctlCmd.AXI_FPGA_GET_PAGE demo_buf demo_open).retval
      = -EINVAL ∧
    (axi_fpga_ioctl none 0x99999000 IoctlCmd.AXI_FPGA_GET_PAGE demo_buf demo_open).ubuf
      ≠ demo_buf ∧
    Effect.dma_map_page none demo_buf.size dma_data_direction.DMA_TO_DEVICE
      ∈ (axi_fpga_ioctl none 0x99999000 IoctlCmd.AXI_FPGA_GET_PAGE demo_buf demo_open).effects ∧
    Effect.copy_to_user { demo_buf with phys_addr := 0x99999000 }
      ∈ (axi_fpga_ioctl none 0x99999000 IoctlCmd.AXI_FPGA_GET_PAGE demo_buf demo_open).effects ∧
    (axi_fpga_ioctl none 0x99999000 IoctlCmd.AXI_FPGA_GET_PAGE demo_buf demo_open).dev
      = demo_open := by
  decide

/-- C10: for every descriptor (any physical address, size and direction,
resolved before or not) and every device state, GIVE_PAGE performs
exactly one sync-for-device and TAKE_PAGE exactly one sync-for-cpu on the
given physical address and size, with DMA direction to-device exactly
when the descriptor direction is nonzero; both return 0, write nothing
back to the caller, consult no resolution oracle and leave every field of
the device instance unchanged. -/
theorem C10_give_take_page (gup : Option Nat) (dma : Nat)
    (b : buffer_addr) (d : axi_fpga_drvdata) :
    axi_fpga_ioctl gup dma IoctlCmd.AXI_FPGA_GIVE_PAGE b d =
      { retval := 0, ubuf := b,
        effects := [Effect.dma_sync_single_for_device b.phys_addr b.size
          (if b.direction ≠ 0 then dma_data_direction.DMA_TO_DEVICE
           else dma_data_direction.DMA_FROM_DEVICE)],
        dev := d } ∧
    axi_fpga_ioctl gup dma IoctlCmd.AXI_FPGA_TAKE_PAGE b d =
      { retval := 0, ubuf := b,
        effects := [Effect.dma_sync_single_for_cpu b.phys_addr b.size
          (if b.direction ≠ 0 then dma_data_direction.DMA_TO_DEVICE
           else dma_data_direction.DMA_FROM_DEVICE)],
        dev := d } :=
  ⟨rfl, rfl⟩

end AxiFpga
